import Mathlib

/-!
A shallow embedding of the VMware exit-intelligence decision core
(`agent/analyzer/classifier.py`, `agent/analyzer/scoring.py`,
`agent/analyzer/rules.py`) and proofs about its classification cascade,
risk scoring and rule-catalog validation.

Python's dynamically typed record values are embedded as `PyVal`
(None, int, str, list).  Numeric record fields are embedded as integers:
every threshold in the source is an integer literal and no claim depends
on fractional values, so the comparison logic is identical over `Int`.
Statements that a Python expression raises are embedded as
`Except String` results, with the error string naming the Python
exception class.
-/

namespace VMIntel

/-- A Python value as it occurs in a VM-record dict: `None`, an integer,
a string, or a list of values. -/
inductive PyVal where
  | vnone : PyVal
  | vint (n : Int) : PyVal
  | vstr (s : String) : PyVal
  | vlist (xs : List PyVal) : PyVal

mutual

/-- Python `a == b` on embedded values (no implicit coercions between
our value kinds arise: `1 == "1"` is `False` in Python and here). -/
def pyEqB : PyVal → PyVal → Bool
  | PyVal.vnone, PyVal.vnone => true
  | PyVal.vint n, PyVal.vint m => n == m
  | PyVal.vstr s, PyVal.vstr t => s == t
  | PyVal.vlist xs, PyVal.vlist ys => pyEqListB xs ys
  | _, _ => false

def pyEqListB : List PyVal → List PyVal → Bool
  | [], [] => true
  | x :: xs, y :: ys => pyEqB x y && pyEqListB xs ys
  | _, _ => false

end

/-- Python `v == s` against a string literal. -/
def pyEqStr (v : PyVal) (s : String) : Bool :=
  match v with
  | PyVal.vstr t => t == s
  | _ => false

/-- A Python dict with string keys, as used for a VM record or a rule
descriptor (list of key/value pairs, first binding wins). -/
abbrev PyDict := List (String × PyVal)

/-- `d[k]` lookup: `vm.get(field)` when the key may be absent. -/
def dictGet (d : PyDict) (k : String) : Option PyVal :=
  (d.find? (fun p => p.1 = k)).map (fun p => p.2)

/-- `vm.get(field, default)`. -/
def dictGetD (d : PyDict) (k : String) (dflt : PyVal) : PyVal :=
  (dictGet d k).getD dflt

/-!
String primitives.  The corresponding core functions (`String.trim`,
`String.toLower`, `String.drop`, ...) are compiled by well-founded
recursion over byte positions, which the kernel cannot evaluate; these
structural list-based versions compute the same strings and let closed
propositions be settled by `decide`.  Python's `str` operations are
Unicode-aware; every string these programs compare is ASCII, and the
`Char.toLower`/`Char.isWhitespace`/`Char.isDigit` treatment below agrees
with Python on ASCII.
-/

/-- Lower-case a string (Python `s.lower()` on ASCII data). -/
def pyLower (s : String) : String :=
  String.mk (s.toList.map Char.toLower)

/-- Python `s.startswith(pat)`. -/
def pyStartsWith (s pat : String) : Bool :=
  pat.toList.isPrefixOf s.toList

/-- Python `s[n:]` (drop the first `n` characters). -/
def pyDrop (s : String) (n : Nat) : String :=
  String.mk (s.toList.drop n)

/-- Python `s.strip()` (surrounding whitespace removed). -/
def pyTrim (s : String) : String :=
  String.mk
    (((s.toList.dropWhile Char.isWhitespace).reverse.dropWhile Char.isWhitespace).reverse)

/-- Substring search on suffixes of a character list. -/
def containsSub : List Char → List Char → Bool
  | s, pat =>
    if pat.isPrefixOf s then true
    else
      match s with
      | [] => false
      | _ :: t => containsSub t pat

/-- Python `pat in s` substring test (`str.find(...) >= 0`). -/
def strContains (s pat : String) : Bool :=
  containsSub s.toList pat.toList

/-- Python `"sep".join(parts)`. -/
def joinSep (sep : String) : List String → String
  | [] => ""
  | [x] => x
  | x :: y :: xs => x ++ sep ++ joinSep sep (y :: xs)

/-- Numeric value of a run of decimal digits. -/
def digitsVal (cs : List Char) : Nat :=
  cs.foldl (fun a c => a * 10 + (c.toNat - 48)) 0

/-- Python `int(s)`: optional surrounding whitespace, optional sign, a
nonempty run of decimal digits; anything else raises (modelled as
`none`).  Underscore separators and non-ASCII digits are not modelled;
no input in this development uses them. -/
def pyIntParse (s : String) : Option Int :=
  let t := pyTrim s
  let core := if pyStartsWith t "+" || pyStartsWith t "-" then pyDrop t 1 else t
  if core.toList ≠ [] && core.toList.all Char.isDigit then
    some (if pyStartsWith t "-" then -(digitsVal core.toList : Int)
          else (digitsVal core.toList : Int))
  else
    none

mutual

/-- Python `repr(v)` (enough of it for list formatting; string escaping
inside reprs is not modelled, no input here needs it). -/
def pyRepr : PyVal → String
  | PyVal.vnone => "None"
  | PyVal.vint n => toString n
  | PyVal.vstr s => "\x27" ++ s ++ "\x27"
  | PyVal.vlist xs => "[" ++ pyReprList xs ++ "]"

def pyReprList : List PyVal → String
  | [] => ""
  | [x] => pyRepr x
  | x :: y :: xs => pyRepr x ++ ", " ++ pyReprList (y :: xs)

end

/-- Python `str(v)` as used by f-string interpolation. -/
def pyStr : PyVal → String
  | PyVal.vnone => "None"
  | PyVal.vint n => toString n
  | PyVal.vstr s => s
  | PyVal.vlist xs => "[" ++ pyReprList xs ++ "]"

/-- `str(opt)` where a missing key surfaced as Python `None`. -/
def pyStrOpt (v : Option PyVal) : String :=
  pyStr (v.getD PyVal.vnone)

/-- Python `(v or "").lower()`: falsy values collapse to the empty
string; a truthy non-string has no `.lower()` and raises
`AttributeError`. -/
def pyOrEmptyLower : PyVal → Except String String
  | PyVal.vnone => Except.ok ""
  | PyVal.vstr s => Except.ok (pyLower s)
  | PyVal.vint n => if n = 0 then Except.ok "" else Except.error "AttributeError"
  | PyVal.vlist [] => Except.ok ""
  | PyVal.vlist (_ :: _) => Except.error "AttributeError"

/-- Python `v > m` for an integer literal `m`: defined on numbers, a
`TypeError` on anything else. -/
def pyGtI (v : PyVal) (m : Int) : Except String Bool :=
  match v with
  | PyVal.vint n => Except.ok (decide (m < n))
  | _ => Except.error "TypeError"

/-- Python `v <= m` for an integer literal `m`: defined on numbers, a
`TypeError` on anything else. -/
def pyLeI (v : PyVal) (m : Int) : Except String Bool :=
  match v with
  | PyVal.vint n => Except.ok (decide (n ≤ m))
  | _ => Except.error "TypeError"

/-! ### `RuleEngine._extract_powered_off_days` (classifier.py:170-178) -/

/-- The tag prefix scanned for by the zombie tier. -/
def offDaysTagKey : String := "powered_off_days="

/-- Body of `_extract_powered_off_days`: walk the tag list; on the first
tag starting with `powered_off_days=` return `int(<suffix>)`, or `0` when
that fails; reaching the end returns `0`.  `t.split("=", 1)[1]` is the
text after the first `=`, i.e. `t.drop 17`, since the prefix itself holds
the first `=`.  A non-string element reached by the loop raises
(`AttributeError`, since only `str` has `.startswith`). -/
def extractDaysList : List PyVal → Except String Int
  | [] => Except.ok 0
  | PyVal.vstr t :: rest =>
      if pyStartsWith t offDaysTagKey then
        Except.ok ((pyIntParse (pyDrop t 17)).getD 0)
      else
        extractDaysList rest
  | _ :: _ => Except.error "AttributeError"

/-- `_extract_powered_off_days(tags)` where `tags = vm.get("tags", [])`
may be any value: `for t in tags` over a list walks it; over a string it
yields one-character strings, none of which can start with the 17-character
prefix, so the result is `0`; over `None`/an int it raises `TypeError`. -/
def extractPoweredOffDays : PyVal → Except String Int
  | PyVal.vlist xs => extractDaysList xs
  | PyVal.vstr _ => Except.ok 0
  | _ => Except.error "TypeError"

/-! ### `RuleEngine.classify` (classifier.py:73-168) -/

/-- Priority 1 guard value: the powered-off day count when the power
state equals `"poweredOff"` (running the tag extraction), `0` otherwise
(the source never touches the tags then). -/
def zombieDays (vm : PyDict) : Except String Int :=
  if pyEqStr (dictGetD vm "power_state" PyVal.vnone) "poweredOff" then
    extractPoweredOffDays (dictGetD vm "tags" (PyVal.vlist []))
  else
    Except.ok 0

/-- Reason string of the zombie tier (f-string at classifier.py:91). -/
def zombieReason (d : Int) : String :=
  "Powered off for " ++ toString d ++ " days; requires decommission"

/-- `(vm.get("guest_os") or "").lower()` (classifier.py:95). -/
def guestLower (vm : PyDict) : Except String String :=
  pyOrEmptyLower (dictGetD vm "guest_os" PyVal.vnone)

/-- The fixed legacy-OS pattern/reason table (classifier.py:96-101). -/
def legacyPatterns : List (String × String) :=
  [("2008", "Windows Server 2008 legacy OS requires on-premises infrastructure"),
   ("2003", "Windows Server 2003 legacy OS requires on-premises infrastructure"),
   ("rhel 6", "RHEL 6 legacy OS not supported in cloud targets"),
   ("centos 6", "CentOS 6 legacy OS not supported in cloud targets")]

/-- First legacy pattern contained in the lower-cased guest OS, with its
reason (the `for pattern, reason in legacy_patterns` loop). -/
def legacyHit (gos : String) : Option (String × String) :=
  legacyPatterns.find? (fun p => strContains gos p.1)

/-- Reason fragment for `snapshot_count > 5` (classifier.py:111-113). -/
def snapFragment (vm : PyDict) : String :=
  "Complex snapshot state (" ++ pyStrOpt (dictGet vm "snapshot_count") ++
    " snapshots) requires stateful rehost"

/-- Reason fragment for `nics > 3` (classifier.py:117-119). -/
def nicFragment (vm : PyDict) : String :=
  "Multi-NIC configuration (" ++ pyStrOpt (dictGet vm "nics") ++
    " NICs) requires careful networking planning"

/-- Reason fragment for `tools_status != "running"` (classifier.py:123-125). -/
def toolsFragment (vm : PyDict) : String :=
  "VMware Tools " ++ pyStr (dictGetD vm "tools_status" (PyVal.vstr "unknown")) ++
    " indicates operational complexity"

/-- Reason fragment for `disk_gb > 300` (classifier.py:129-131). -/
def diskFragment (vm : PyDict) : String :=
  "Large disk footprint (" ++ pyStrOpt (dictGet vm "disk_gb") ++
    " GB) suggests stateful workload"

/-- Priority 3 fragment accumulation (classifier.py:107-131): the four
checks run unconditionally in order (each numeric one may raise), each
appending its fragment when it fires. -/
def rehostReasons (vm : PyDict) : Except String (List String) :=
  match pyGtI (dictGetD vm "snapshot_count" (PyVal.vint 0)) 5 with
  | Except.error e => Except.error e
  | Except.ok snapHi =>
    match pyGtI (dictGetD vm "nics" (PyVal.vint 0)) 3 with
    | Except.error e => Except.error e
    | Except.ok nicHi =>
      let toolsBad := !pyEqStr (dictGetD vm "tools_status" PyVal.vnone) "running"
      match pyGtI (dictGetD vm "disk_gb" (PyVal.vint 0)) 300 with
      | Except.error e => Except.error e
      | Except.ok diskHi =>
        Except.ok
          ((if snapHi then [snapFragment vm] else []) ++
           (if nicHi then [nicFragment vm] else []) ++
           (if toolsBad then [toolsFragment vm] else []) ++
           (if diskHi then [diskFragment vm] else []))

/-- `is_linux` (classifier.py:143-145): the lower-cased guest OS contains
`linux` or any of `rhel`, `centos`, `ubuntu`, `debian`. -/
def isLinux (gos : String) : Bool :=
  strContains gos "linux" ||
    ["rhel", "centos", "ubuntu", "debian"].any (fun x => strContains gos x)

/-- The `risk_signals` tally (classifier.py:149-157): one increment per
firing signal, each numeric comparison may raise, evaluated in order. -/
def riskSignals (vm : PyDict) : Except String Nat :=
  match pyGtI (dictGetD vm "snapshot_count" (PyVal.vint 0)) 0 with
  | Except.error e => Except.error e
  | Except.ok s1 =>
    match pyGtI (dictGetD vm "avg_cpu_usage_pct" (PyVal.vint 0)) 70 with
    | Except.error e => Except.error e
    | Except.ok s2 =>
      match pyGtI (dictGetD vm "avg_mem_usage_pct" (PyVal.vint 0)) 70 with
      | Except.error e => Except.error e
      | Except.ok s3 =>
        match pyGtI (dictGetD vm "uptime_days" (PyVal.vint 0)) 365 with
        | Except.error e => Except.error e
        | Except.ok s4 =>
          Except.ok ((if s1 then 1 else 0) + (if s2 then 1 else 0) +
                     (if s3 then 1 else 0) + (if s4 then 1 else 0))

/-- Priority 4 guard (classifier.py:147-159): `is_linux and
vm.get("nics", 1) <= 1 and vm.get("disk_gb", 0) <= 100` with Python
short-circuiting, then `risk_signals == 0`. -/
def refactorFires (vm : PyDict) (gos : String) : Except String Bool :=
  if isLinux gos then
    match pyLeI (dictGetD vm "nics" (PyVal.vint 1)) 1 with
    | Except.error e => Except.error e
    | Except.ok nicsOk =>
      if nicsOk then
        match pyLeI (dictGetD vm "disk_gb" (PyVal.vint 0)) 100 with
        | Except.error e => Except.error e
        | Except.ok diskOk =>
          if diskOk then
            match riskSignals vm with
            | Except.error e => Except.error e
            | Except.ok n => Except.ok (n == 0)
          else Except.ok false
      else Except.ok false
  else Except.ok false

/-- Fixed reason of the conservative-refactor tier (classifier.py:164). -/
def refactorReason : String :=
  "Linux; low risk profile; single NIC; small disk; eligible for containerization"

/-- Fixed reason of the default tier (classifier.py:168). -/
def defaultReason : String := "Conservative default: keep on-premises"

/-- A classification result `(category, confidence, matched_rule_name,
reason)`. -/
abbrev ClassifyResult := String × String × String × String

/-- `RuleEngine.classify` (classifier.py:73-168): the five-tier priority
cascade with early return; `if powered_off_days and powered_off_days > 60`
is equivalent to `60 < d` since `d > 60` forces `d` truthy. -/
def classify (vm : PyDict) : Except String ClassifyResult :=
  match zombieDays vm with
  | Except.error e => Except.error e
  | Except.ok d =>
    if 60 < d then
      Except.ok ("retire", "high", "zombie-detection", zombieReason d)
    else
      match guestLower vm with
      | Except.error e => Except.error e
      | Except.ok gos =>
        match legacyHit gos with
        | some pr => Except.ok ("keep", "high", "legacy-os-detection", pr.2)
        | none =>
          match rehostReasons vm with
          | Except.error e => Except.error e
          | Except.ok rs =>
            if rs ≠ [] then
              Except.ok ("rehost", if 1 < rs.length then "high" else "medium",
                         "workload-complexity", joinSep "; " rs)
            else
              match refactorFires vm gos with
              | Except.error e => Except.error e
              | Except.ok fires =>
                if fires then
                  Except.ok ("refactor_candidate", "medium",
                             "conservative-refactor", refactorReason)
                else
                  Except.ok ("keep", "medium", "default-conservative",
                             defaultReason)

/-! ### `score_vm` and `risk_level` (scoring.py) -/

/-- The legacy guest-OS tokens of the scoring engine (scoring.py:28). -/
def legacyTokens : List String := ["2008", "2003", "rhel 6", "centos 6"]

/-- High-utilization signal (scoring.py:41): Python `or` short-circuits,
so the memory comparison only runs when the CPU one returns `False`. -/
def highUsage (vm : PyDict) : Except String Bool :=
  match pyGtI (dictGetD vm "avg_cpu_usage_pct" (PyVal.vint 0)) 80 with
  | Except.error e => Except.error e
  | Except.ok c =>
    if c then Except.ok true
    else pyGtI (dictGetD vm "avg_mem_usage_pct" (PyVal.vint 0)) 80

/-- `score_vm` (scoring.py:4-54): the seven additive signals in source
order, each appending its fixed trace entry, followed by the two clamping
statements `if score > 100` / `if score < 0`. -/
def score_vm (vm : PyDict) : Except String (Int × List String) :=
  match pyGtI (dictGetD vm "snapshot_count" (PyVal.vint 0)) 5 with
  | Except.error e => Except.error e
  | Except.ok snapHi =>
    match pyGtI (dictGetD vm "max_snapshot_age_days" (PyVal.vint 0)) 30 with
    | Except.error e => Except.error e
    | Except.ok ageHi =>
      match guestLower vm with
      | Except.error e => Except.error e
      | Except.ok guest =>
        let legacyHi := legacyTokens.any (fun tok => strContains guest tok)
        let toolsBad := !pyEqStr (dictGetD vm "tools_status" PyVal.vnone) "running"
        match pyGtI (dictGetD vm "nics" (PyVal.vint 0)) 3 with
        | Except.error e => Except.error e
        | Except.ok nicHi =>
          match highUsage vm with
          | Except.error e => Except.error e
          | Except.ok usageHi =>
            match pyGtI (dictGetD vm "uptime_days" (PyVal.vint 0)) 365 with
            | Except.error e => Except.error e
            | Except.ok upHi =>
              let score : Int :=
                (if snapHi then 20 else 0) + (if ageHi then 15 else 0) +
                (if legacyHi then 25 else 0) + (if toolsBad then 10 else 0) +
                (if nicHi then 10 else 0) + (if usageHi then 15 else 0) +
                (if upHi then 10 else 0)
              let trace :=
                (if snapHi then ["snapshot_count>5:+20"] else []) ++
                (if ageHi then ["max_snapshot_age_days>30:+15"] else []) ++
                (if legacyHi then ["guest_os_legacy:+25"] else []) ++
                (if toolsBad then ["tools_status_not_running:+10"] else []) ++
                (if nicHi then ["nics>3:+10"] else []) ++
                (if usageHi then ["high_avg_usage:+15"] else []) ++
                (if upHi then ["uptime_days>365:+10"] else [])
              let score := if 100 < score then 100 else score
              let score := if score < 0 then 0 else score
              Except.ok (score, trace)

/-- `risk_level` (scoring.py:57-62). -/
def risk_level (score : Int) : String :=
  if score ≤ 29 then "Low"
  else if score ≤ 69 then "Medium"
  else "High"

/-! ### Rule-catalog loading and validation (rules.py, classifier.py:50-71) -/

/-- The closed category vocabulary (`RuleEngine.ALLOWED_CATEGORIES`). -/
def ALLOWED_CATEGORIES : List String := ["rehost", "refactor_candidate", "retire", "keep"]

/-- The closed confidence vocabulary (`RuleEngine.ALLOWED_CONFIDENCES`). -/
def ALLOWED_CONFIDENCES : List String := ["low", "medium", "high"]

/-- The structured content of the `ValueError` raised by
`_validate_rules`: its message names the offending rule (`r.get("name")`),
the offending value and the allowed vocabulary. -/
structure RuleError where
  ruleName : Option PyVal
  badValue : String
  allowed : List String

/-- `r.get("category", "").lower()` — no `str()` coercion, so a
non-string category raises `AttributeError` before the vocabulary
check. -/
def ruleCatLower (r : PyDict) : Except String String :=
  match dictGetD r "category" (PyVal.vstr "") with
  | PyVal.vstr s => Except.ok (pyLower s)
  | _ => Except.error "AttributeError"

/-- `str(r.get("confidence", "")).lower()` — coerced from any value to a
string first, so this never raises. -/
def ruleConfLower (r : PyDict) : String :=
  pyLower (pyStr (dictGetD r "confidence" (PyVal.vstr "")))

/-- `_validate_rules` (classifier.py:57-71) on one rule: category check
first, then confidence check; a failed check raises a `ValueError`
carrying the rule name and the allowed set. -/
def validateRule (r : PyDict) : Except (Except String RuleError) Unit :=
  match ruleCatLower r with
  | Except.error e => Except.error (Except.error e)
  | Except.ok cat =>
    if ALLOWED_CATEGORIES.contains cat then
      if ALLOWED_CONFIDENCES.contains (ruleConfLower r) then
        Except.ok ()
      else
        Except.error (Except.ok ⟨dictGet r "name", ruleConfLower r, ALLOWED_CONFIDENCES⟩)
    else
      Except.error (Except.ok ⟨dictGet r "name", cat, ALLOWED_CATEGORIES⟩)

/-- `_validate_rules` over the loaded rule list: the loop stops at the
first offending rule. -/
def validateRules : List PyDict → Except (Except String RuleError) Unit
  | [] => Except.ok ()
  | r :: rest =>
    match validateRule r with
    | Except.error e => Except.error e
    | Except.ok _ => validateRules rest

/-- Trailing list check of `load_rules` (rules.py:26-28) on the parsed
file content: anything that is not a list is a fatal `ValueError`.  The
file read and the YAML/JSON parse in front of it are the external
collaborator boundary. -/
def loadRulesParsed (data : PyVal) : Except String (List PyVal) :=
  match data with
  | PyVal.vlist xs => Except.ok xs
  | _ => Except.error "Rules file must be a YAML/JSON list of rules"

/-! ### `_eval_condition` (classifier.py:6-44) -/

/-- Python `float(v)` restricted to integral values: an int converts, a
string parses when it is a (signed) decimal integer, everything else
fails.  (Real Python also parses fractional literals; no threshold or
claim here distinguishes them, see the header note.) -/
def pyFloatParse (v : PyVal) : Option Int :=
  match v with
  | PyVal.vint n => some n
  | PyVal.vstr s => pyIntParse s
  | _ => none

/-- The guarded numeric comparison of `_eval_condition`:
`try: float(vm_val) OP float(val) except: False`. -/
def guardedCmp (cmp : Int → Int → Bool) (vmVal pv : PyVal) : Bool :=
  match pyFloatParse vmVal, pyFloatParse pv with
  | some a, some b => cmp a b
  | _, _ => false

/-- Python `x in y` (for the `in` / `not_in` operators): membership by
`==` in a list, substring test in a string, `TypeError` otherwise. -/
def pyInB (x y : PyVal) : Except String Bool :=
  match y with
  | PyVal.vlist xs => Except.ok (xs.any (fun v => pyEqB x v))
  | PyVal.vstr s =>
    match x with
    | PyVal.vstr sub => Except.ok (strContains s sub)
    | _ => Except.error "TypeError"
  | _ => Except.error "TypeError"

/-- The `vm.get(field)` lookup of `_eval_condition`: a non-string
`field` never matches a string-keyed dict, yielding `None`. -/
def condVmVal (vm cond : PyDict) : PyVal :=
  match dictGetD cond "field" PyVal.vnone with
  | PyVal.vstr s => dictGetD vm s PyVal.vnone
  | _ => PyVal.vnone

/-- `_eval_condition(vm, cond)` (classifier.py:6-44): dispatch on the
operator string, raising `ValueError` on an unknown one. -/
def evalCondition (vm : PyDict) (cond : PyDict) : Except String Bool :=
  let op := dictGetD cond "op" PyVal.vnone
  let val := dictGetD cond "value" PyVal.vnone
  let vmVal := condVmVal vm cond
  if pyEqStr op "contains" then
    match pyOrEmptyLower vmVal with
    | Except.error e => Except.error e
    | Except.ok s => Except.ok (strContains s (pyLower (pyStr val)))
  else if pyEqStr op "eq" then Except.ok (pyEqB vmVal val)
  else if pyEqStr op "neq" then Except.ok (!pyEqB vmVal val)
  else if pyEqStr op "gt" then Except.ok (guardedCmp (fun a b => b < a) vmVal val)
  else if pyEqStr op "gte" then Except.ok (guardedCmp (fun a b => b ≤ a) vmVal val)
  else if pyEqStr op "lt" then Except.ok (guardedCmp (fun a b => a < b) vmVal val)
  else if pyEqStr op "lte" then Except.ok (guardedCmp (fun a b => a ≤ b) vmVal val)
  else if pyEqStr op "in" then pyInB vmVal val
  else if pyEqStr op "not_in" then
    match pyInB vmVal val with
    | Except.error e => Except.error e
    | Except.ok b => Except.ok (!b)
  else Except.error "ValueError: Unknown operator"

/-! ### Schema-conformance checkers

The spec's data model (§3) types each numeric field as a number, `tags`
as a list of strings and `guest_os` as a string.  These Bool-valued
checkers carve out the records on which the cascade's bare Python
comparisons are defined; a field may also be absent, in which case the
source supplies a default. -/

/-- Field `k`, when present, holds a number. -/
def numFieldOkB (vm : PyDict) (k : String) : Bool :=
  match dictGet vm k with
  | none => true
  | some (PyVal.vint _) => true
  | some _ => false

/-- Field `tags`, when present, is a list of strings. -/
def tagsOkB (vm : PyDict) : Bool :=
  match dictGet vm "tags" with
  | none => true
  | some (PyVal.vlist xs) =>
      xs.all (fun t => match t with | PyVal.vstr _ => true | _ => false)
  | some _ => false

/-- Field `guest_os`, when present, is a string or `None`. -/
def guestOkB (vm : PyDict) : Bool :=
  match dictGet vm "guest_os" with
  | none => true
  | some PyVal.vnone => true
  | some (PyVal.vstr _) => true
  | some _ => false

/-- All fields the classification cascade compares numerically are
absent-or-numeric, `tags` is a list of strings and `guest_os` a string:
the fragment of the VM-record schema `classify` relies on. -/
def classifyOkB (vm : PyDict) : Bool :=
  numFieldOkB vm "snapshot_count" && numFieldOkB vm "nics" &&
  numFieldOkB vm "disk_gb" && numFieldOkB vm "avg_cpu_usage_pct" &&
  numFieldOkB vm "avg_mem_usage_pct" && numFieldOkB vm "uptime_days" &&
  tagsOkB vm && guestOkB vm

/-- The fragment of the VM-record schema `score_vm` relies on. -/
def scoreOkB (vm : PyDict) : Bool :=
  numFieldOkB vm "snapshot_count" && numFieldOkB vm "max_snapshot_age_days" &&
  numFieldOkB vm "nics" && numFieldOkB vm "avg_cpu_usage_pct" &&
  numFieldOkB vm "avg_mem_usage_pct" && numFieldOkB vm "uptime_days" &&
  guestOkB vm

/-- Decidable equality of `Except` results, for settling closed runs of
the engines by `decide`. -/
instance {ε α : Type} [DecidableEq ε] [DecidableEq α] : DecidableEq (Except ε α) :=
  fun a b =>
    match a, b with
    | Except.ok x, Except.ok y =>
        if h : x = y then isTrue (by rw [h]) else isFalse (by simp [h])
    | Except.error x, Except.error y =>
        if h : x = y then isTrue (by rw [h]) else isFalse (by simp [h])
    | Except.ok _, Except.error _ => isFalse (by simp)
    | Except.error _, Except.ok _ => isFalse (by simp)

/-! ### Total views of the cascade on schema-conformant records

On records passing the checkers above, no comparison raises, and each
stage of `classify` computes the following total functions; the bridge
lemmas below prove the two presentations equal. -/

/-- Integer value of field `k`, with the default the source supplies at
its `vm.get(k, dflt)` site. -/
def fieldInt (vm : PyDict) (k : String) (dflt : Int) : Int :=
  match dictGet vm k with
  | some (PyVal.vint n) => n
  | _ => dflt

/-- `vm.get("power_state") == "poweredOff"`. -/
def powerOffB (vm : PyDict) : Bool :=
  pyEqStr (dictGetD vm "power_state" PyVal.vnone) "poweredOff"

/-- Day count the tag extraction yields (0 on an error branch, which the
`tagsOkB` checker rules out). -/
def extractDaysOf (vm : PyDict) : Int :=
  match extractPoweredOffDays (dictGetD vm "tags" (PyVal.vlist [])) with
  | Except.ok d => d
  | Except.error _ => 0

/-- Total view of `zombieDays`. -/
def zombieDaysP (vm : PyDict) : Int :=
  if powerOffB vm then extractDaysOf vm else 0

/-- Total view of `guestLower`. -/
def guestStr (vm : PyDict) : String :=
  match dictGet vm "guest_os" with
  | some (PyVal.vstr s) => pyLower s
  | _ => ""

/-- Fragment condition `snapshot_count > 5`. -/
def snapHiB (vm : PyDict) : Bool := decide (5 < fieldInt vm "snapshot_count" 0)

/-- Fragment condition `nics > 3`. -/
def nicHiB (vm : PyDict) : Bool := decide (3 < fieldInt vm "nics" 0)

/-- Fragment condition `tools_status != "running"`. -/
def toolsBadB (vm : PyDict) : Bool :=
  !pyEqStr (dictGetD vm "tools_status" PyVal.vnone) "running"

/-- Fragment condition `disk_gb > 300`. -/
def diskHiB (vm : PyDict) : Bool := decide (300 < fieldInt vm "disk_gb" 0)

/-- Total view of the priority-3 fragment list, in the fixed check
order. -/
def rehostReasonsP (vm : PyDict) : List String :=
  (if snapHiB vm then [snapFragment vm] else []) ++
  (if nicHiB vm then [nicFragment vm] else []) ++
  (if toolsBadB vm then [toolsFragment vm] else []) ++
  (if diskHiB vm then [diskFragment vm] else [])

/-- Total view of the `risk_signals` tally. -/
def riskTallyP (vm : PyDict) : Nat :=
  (if 0 < fieldInt vm "snapshot_count" 0 then 1 else 0) +
  (if 70 < fieldInt vm "avg_cpu_usage_pct" 0 then 1 else 0) +
  (if 70 < fieldInt vm "avg_mem_usage_pct" 0 then 1 else 0) +
  (if 365 < fieldInt vm "uptime_days" 0 then 1 else 0)

/-- Total view of the priority-4 guard. -/
def refactorFiresP (vm : PyDict) (gos : String) : Bool :=
  isLinux gos && decide (fieldInt vm "nics" 1 ≤ 1) &&
    decide (fieldInt vm "disk_gb" 0 ≤ 100) && (riskTallyP vm == 0)

/-- Total view of the whole cascade. -/
def classifyP (vm : PyDict) : ClassifyResult :=
  if 60 < zombieDaysP vm then
    ("retire", "high", "zombie-detection", zombieReason (zombieDaysP vm))
  else
    match legacyHit (guestStr vm) with
    | some pr => ("keep", "high", "legacy-os-detection", pr.2)
    | none =>
      if rehostReasonsP vm ≠ [] then
        ("rehost", if 1 < (rehostReasonsP vm).length then "high" else "medium",
         "workload-complexity", joinSep "; " (rehostReasonsP vm))
      else if refactorFiresP vm (guestStr vm) then
        ("refactor_candidate", "medium", "conservative-refactor", refactorReason)
      else
        ("keep", "medium", "default-conservative", defaultReason)

/-- Scoring signal `max_snapshot_age_days > 30`. -/
def ageHiB (vm : PyDict) : Bool := decide (30 < fieldInt vm "max_snapshot_age_days" 0)

/-- Scoring signal: lower-cased guest OS contains a legacy token. -/
def legacyHiB (vm : PyDict) : Bool :=
  legacyTokens.any (fun tok => strContains (guestStr vm) tok)

/-- Scoring signal `avg_cpu_usage_pct > 80 or avg_mem_usage_pct > 80`. -/
def usageHiB (vm : PyDict) : Bool :=
  decide (80 < fieldInt vm "avg_cpu_usage_pct" 0) ||
    decide (80 < fieldInt vm "avg_mem_usage_pct" 0)

/-- Scoring signal `uptime_days > 365`. -/
def upHiB (vm : PyDict) : Bool := decide (365 < fieldInt vm "uptime_days" 0)

/-- Raw (unclamped) additive score: the sum of the weights of the fired
signals, weights `20, 15, 25, 10, 10, 15, 10` in source order. -/
def rawScoreP (vm : PyDict) : Int :=
  (if snapHiB vm then 20 else 0) + (if ageHiB vm then 15 else 0) +
  (if legacyHiB vm then 25 else 0) + (if toolsBadB vm then 10 else 0) +
  (if nicHiB vm then 10 else 0) + (if usageHiB vm then 15 else 0) +
  (if upHiB vm then 10 else 0)

/-- Trace entries of the fired signals, in source order. -/
def traceP (vm : PyDict) : List String :=
  (if snapHiB vm then ["snapshot_count>5:+20"] else []) ++
  (if ageHiB vm then ["max_snapshot_age_days>30:+15"] else []) ++
  (if legacyHiB vm then ["guest_os_legacy:+25"] else []) ++
  (if toolsBadB vm then ["tools_status_not_running:+10"] else []) ++
  (if nicHiB vm then ["nics>3:+10"] else []) ++
  (if usageHiB vm then ["high_avg_usage:+15"] else []) ++
  (if upHiB vm then ["uptime_days>365:+10"] else [])

/-- The two clamping statements at the end of `score_vm`. -/
def clampScore (n : Int) : Int :=
  let m := if 100 < n then 100 else n
  if m < 0 then 0 else m

/-! ### Concrete records (from the spec scenarios §8 and the analysis
below) -/

/-- Scenario 1: a zombie record. -/
def zombieVM : PyDict :=
  [("power_state", PyVal.vstr "poweredOff"),
   ("tags", PyVal.vlist [PyVal.vstr "powered_off_days=120"]),
   ("guest_os", PyVal.vstr "Ubuntu 18.04"), ("tools_status", PyVal.vstr "unknown"),
   ("nics", PyVal.vint 1), ("snapshot_count", PyVal.vint 0),
   ("disk_gb", PyVal.vint 100), ("max_snapshot_age_days", PyVal.vint 0),
   ("avg_cpu_usage_pct", PyVal.vint 0), ("avg_mem_usage_pct", PyVal.vint 0),
   ("uptime_days", PyVal.vint 0)]

/-- Scenario 3: two workload-complexity fragments. -/
def complexVM : PyDict :=
  [("power_state", PyVal.vstr "poweredOn"), ("guest_os", PyVal.vstr "Ubuntu 20.04"),
   ("tools_status", PyVal.vstr "running"), ("snapshot_count", PyVal.vint 8),
   ("nics", PyVal.vint 4), ("disk_gb", PyVal.vint 100),
   ("avg_cpu_usage_pct", PyVal.vint 20), ("avg_mem_usage_pct", PyVal.vint 20),
   ("uptime_days", PyVal.vint 100), ("tags", PyVal.vlist [])]

/-- Scenario 4: a conservative-refactor candidate. -/
def refactorVM : PyDict :=
  [("power_state", PyVal.vstr "poweredOn"), ("guest_os", PyVal.vstr "Ubuntu 20.04"),
   ("tools_status", PyVal.vstr "running"), ("nics", PyVal.vint 1),
   ("disk_gb", PyVal.vint 50), ("snapshot_count", PyVal.vint 0),
   ("avg_cpu_usage_pct", PyVal.vint 20), ("avg_mem_usage_pct", PyVal.vint 20),
   ("uptime_days", PyVal.vint 1), ("tags", PyVal.vlist [])]

/-- Scenario 5: Fedora with a nonzero risk tally, falling to the
default tier. -/
def fedoraVM : PyDict :=
  [("power_state", PyVal.vstr "poweredOn"), ("guest_os", PyVal.vstr "Fedora 34"),
   ("tools_status", PyVal.vstr "running"), ("nics", PyVal.vint 1),
   ("disk_gb", PyVal.vint 80), ("snapshot_count", PyVal.vint 1),
   ("avg_cpu_usage_pct", PyVal.vint 20), ("avg_mem_usage_pct", PyVal.vint 20),
   ("uptime_days", PyVal.vint 100), ("tags", PyVal.vlist [])]

/-- Scenario 6: all seven scoring signals fire (raw sum 105). -/
def maxScoreVM : PyDict :=
  [("snapshot_count", PyVal.vint 8), ("max_snapshot_age_days", PyVal.vint 40),
   ("guest_os", PyVal.vstr "RHEL 6"), ("tools_status", PyVal.vstr "notRunning"),
   ("nics", PyVal.vint 5), ("avg_cpu_usage_pct", PyVal.vint 90),
   ("avg_mem_usage_pct", PyVal.vint 20), ("uptime_days", PyVal.vint 400)]

/-- A powered-off record whose first `powered_off_days=` tag is
malformed while a later well-formed one reads 120. -/
def staleTagVM : PyDict :=
  [("power_state", PyVal.vstr "poweredOff"),
   ("tags", PyVal.vlist
      [PyVal.vstr "powered_off_days=bad", PyVal.vstr "powered_off_days=120"])]

/-- A record whose `snapshot_count` holds a (malformed) string. -/
def badSnapVM : PyDict := [("snapshot_count", PyVal.vstr "many")]

/-- A generic condition comparing `snapshot_count > 5`, as the
declarative evaluator would receive it. -/
def gtSnapCond : PyDict :=
  [("field", PyVal.vstr "snapshot_count"), ("op", PyVal.vstr "gt"),
   ("value", PyVal.vint 5)]

/-- Drawn from the spec's words, for comparison with the source's
extraction: "a tag of the form `powered_off_days=<integer>` is present
whose integer value is strictly greater than 60" together with the
poweredOff power state — i.e. SOME tag of that form qualifies, wherever
it sits in the list. -/
def specZombieTriggerB (vm : PyDict) : Bool :=
  powerOffB vm &&
    (match dictGetD vm "tags" (PyVal.vlist []) with
     | PyVal.vlist xs =>
        xs.any (fun t =>
          match t with
          | PyVal.vstr s =>
              pyStartsWith s offDaysTagKey &&
                (match pyIntParse (pyDrop s 17) with
                 | some n => decide (60 < n)
                 | none => false)
          | _ => false)
     | _ => false)

/-- A fully valid rule list (the repo's catalog shape). -/
def goodRules : List PyDict :=
  [[("name", PyVal.vstr "zombie-detection"), ("category", PyVal.vstr "retire"),
    ("confidence", PyVal.vstr "high")],
   [("name", PyVal.vstr "default-conservative"), ("category", PyVal.vstr "keep"),
    ("confidence", PyVal.vstr "medium")]]

/-- A rule list with one descriptor outside the category vocabulary. -/
def badRules : List PyDict :=
  [[("name", PyVal.vstr "ok-rule"), ("category", PyVal.vstr "keep"),
    ("confidence", PyVal.vstr "high")],
   [("name", PyVal.vstr "bad-rule"), ("category", PyVal.vstr "replatform"),
    ("confidence", PyVal.vstr "high")]]

/-- Number of priority-3 fragments that fire. -/
def firedCount (vm : PyDict) : Nat :=
  (if snapHiB vm then 1 else 0) + (if nicHiB vm then 1 else 0) +
  (if toolsBadB vm then 1 else 0) + (if diskHiB vm then 1 else 0)

/-- Category/confidence string check of a single rule descriptor
(the conditions `_validate_rules` enforces). -/
def ruleOkB (r : PyDict) : Bool :=
  (match ruleCatLower r with
   | Except.ok c => ALLOWED_CATEGORIES.contains c
   | Except.error _ => false) &&
  ALLOWED_CONFIDENCES.contains (ruleConfLower r)

/-- The descriptor's category slot holds a string (the spec's data model
for the rule catalog: string `name`, string `category`, scalar
`confidence`). -/
def ruleCatIsStrB (r : PyDict) : Bool :=
  match dictGetD r "category" (PyVal.vstr "") with
  | PyVal.vstr _ => true
  | _ => false

/-! ### Bridge lemmas: on schema-conformant records the engines are the
total functions above -/

/-- A `>` comparison at a `vm.get(k, d)` site evaluates without raising
when field `k` is absent or numeric. -/
theorem pyGtI_field (vm : PyDict) (k : String) (d m : Int)
    (h : numFieldOkB vm k = true) :
    pyGtI (dictGetD vm k (PyVal.vint d)) m =
      Except.ok (decide (m < fieldInt vm k d)) := by
  unfold numFieldOkB at h
  unfold dictGetD fieldInt
  cases hg : dictGet vm k with
  | none => simp [pyGtI]
  | some v =>
      rw [hg] at h
      cases v with
      | vint n => simp [pyGtI]
      | vnone => simp at h
      | vstr s => simp at h
      | vlist xs => simp at h

/-- A `<=` comparison at a `vm.get(k, d)` site evaluates without raising
when field `k` is absent or numeric. -/
theorem pyLeI_field (vm : PyDict) (k : String) (d m : Int)
    (h : numFieldOkB vm k = true) :
    pyLeI (dictGetD vm k (PyVal.vint d)) m =
      Except.ok (decide (fieldInt vm k d ≤ m)) := by
  unfold numFieldOkB at h
  unfold dictGetD fieldInt
  cases hg : dictGet vm k with
  | none => simp [pyLeI]
  | some v =>
      rw [hg] at h
      cases v with
      | vint n => simp [pyLeI]
      | vnone => simp at h
      | vstr s => simp at h
      | vlist xs => simp at h

/-- The tag walk returns a day count on any list of string tags. -/
theorem extractDaysList_isOk (xs : List PyVal)
    (h : xs.all (fun t => match t with | PyVal.vstr _ => true | _ => false) = true) :
    ∃ d, extractDaysList xs = Except.ok d := by
  induction xs with
  | nil => exact ⟨0, rfl⟩
  | cons t rest ih =>
      simp only [List.all_cons, Bool.and_eq_true] at h
      cases t with
      | vstr s =>
          by_cases hs : pyStartsWith s offDaysTagKey
          · exact ⟨(pyIntParse (pyDrop s 17)).getD 0, by simp [extractDaysList, hs]⟩
          · obtain ⟨d, hd⟩ := ih h.2
            exact ⟨d, by simp [extractDaysList, hs, hd]⟩
      | vnone => simp at h
      | vint n => simp at h
      | vlist ys => simp at h

/-- On a conformant `tags` field, the extraction yields
`extractDaysOf`. -/
theorem extractDays_ok (vm : PyDict) (h : tagsOkB vm = true) :
    extractPoweredOffDays (dictGetD vm "tags" (PyVal.vlist [])) =
      Except.ok (extractDaysOf vm) := by
  unfold tagsOkB at h
  unfold extractDaysOf dictGetD
  cases hg : dictGet vm "tags" with
  | none => simp [extractPoweredOffDays, extractDaysList]
  | some v =>
      rw [hg] at h
      cases v with
      | vlist xs =>
          obtain ⟨d, hd⟩ := extractDaysList_isOk xs h
          simp [extractPoweredOffDays, hd]
      | vnone => simp at h
      | vint n => simp at h
      | vstr s => simp at h

/-- On a conformant record, the priority-1 guard value is
`zombieDaysP`. -/
theorem zombieDays_ok (vm : PyDict) (h : tagsOkB vm = true) :
    zombieDays vm = Except.ok (zombieDaysP vm) := by
  unfold zombieDays zombieDaysP powerOffB
  split
  · exact extractDays_ok vm h
  · rfl

/-- On a conformant record, the guest-OS normalisation yields
`guestStr`. -/
theorem guestLower_ok (vm : PyDict) (h : guestOkB vm = true) :
    guestLower vm = Except.ok (guestStr vm) := by
  unfold guestOkB at h
  unfold guestLower guestStr dictGetD
  cases hg : dictGet vm "guest_os" with
  | none => simp [pyOrEmptyLower]
  | some v =>
      rw [hg] at h
      cases v with
      | vnone => simp [pyOrEmptyLower]
      | vstr s => simp [pyOrEmptyLower]
      | vint n => simp at h
      | vlist xs => simp at h

/-- On a conformant record, the priority-3 fragment accumulation yields
`rehostReasonsP`. -/
theorem rehostReasons_ok (vm : PyDict)
    (h1 : numFieldOkB vm "snapshot_count" = true)
    (h2 : numFieldOkB vm "nics" = true)
    (h3 : numFieldOkB vm "disk_gb" = true) :
    rehostReasons vm = Except.ok (rehostReasonsP vm) := by
  unfold rehostReasons rehostReasonsP snapHiB nicHiB toolsBadB diskHiB
  rw [pyGtI_field vm "snapshot_count" 0 5 h1, pyGtI_field vm "nics" 0 3 h2,
     pyGtI_field vm "disk_gb" 0 300 h3]

/-- On a conformant record, the risk-signal tally yields `riskTallyP`. -/
theorem riskSignals_ok (vm : PyDict)
    (h1 : numFieldOkB vm "snapshot_count" = true)
    (h4 : numFieldOkB vm "avg_cpu_usage_pct" = true)
    (h5 : numFieldOkB vm "avg_mem_usage_pct" = true)
    (h6 : numFieldOkB vm "uptime_days" = true) :
    riskSignals vm = Except.ok (riskTallyP vm) := by
  unfold riskSignals riskTallyP
  rw [pyGtI_field vm "snapshot_count" 0 0 h1, pyGtI_field vm "avg_cpu_usage_pct" 0 70 h4,
     pyGtI_field vm "avg_mem_usage_pct" 0 70 h5, pyGtI_field vm "uptime_days" 0 365 h6]
  simp only [decide_eq_true_eq]

/-- On a conformant record, the priority-4 guard yields
`refactorFiresP`. -/
theorem refactorFires_ok (vm : PyDict) (gos : String)
    (h1 : numFieldOkB vm "snapshot_count" = true)
    (h2 : numFieldOkB vm "nics" = true)
    (h3 : numFieldOkB vm "disk_gb" = true)
    (h4 : numFieldOkB vm "avg_cpu_usage_pct" = true)
    (h5 : numFieldOkB vm "avg_mem_usage_pct" = true)
    (h6 : numFieldOkB vm "uptime_days" = true) :
    refactorFires vm gos = Except.ok (refactorFiresP vm gos) := by
  unfold refactorFires refactorFiresP
  by_cases hl : isLinux gos
  · simp only [hl, if_true, Bool.true_and]
    rw [pyLeI_field vm "nics" 1 1 h2]
    by_cases hn : fieldInt vm "nics" 1 ≤ 1
    · simp only [hn, decide_true_eq_true, if_true, Bool.true_and]
      rw [pyLeI_field vm "disk_gb" 0 100 h3]
      by_cases hd : fieldInt vm "disk_gb" 0 ≤ 100
      · simp only [hd, decide_true_eq_true, if_true, Bool.true_and]
        rw [riskSignals_ok vm h1 h4 h5 h6]
      · simp [hd]
    · simp [hn]
  · simp [hl]

/-- On a conformant record, the high-utilization signal (with Python's
short-circuiting `or`) is the disjunction `usageHiB`. -/
theorem highUsage_ok (vm : PyDict)
    (h4 : numFieldOkB vm "avg_cpu_usage_pct" = true)
    (h5 : numFieldOkB vm "avg_mem_usage_pct" = true) :
    highUsage vm = Except.ok (usageHiB vm) := by
  unfold highUsage usageHiB
  rw [pyGtI_field vm "avg_cpu_usage_pct" 0 80 h4,
     pyGtI_field vm "avg_mem_usage_pct" 0 80 h5]
  by_cases hc : 80 < fieldInt vm "avg_cpu_usage_pct" 0 <;> simp [hc]

/-- On a conformant record, `score_vm` never raises and computes the
clamped additive score and the ordered trace. -/
theorem score_vm_ok (vm : PyDict) (h : scoreOkB vm = true) :
    score_vm vm = Except.ok (clampScore (rawScoreP vm), traceP vm) := by
  unfold scoreOkB at h
  simp only [Bool.and_eq_true] at h
  obtain ⟨⟨⟨⟨⟨⟨h1, h2⟩, h3⟩, h4⟩, h5⟩, h6⟩, h7⟩ := h
  unfold score_vm
  rw [pyGtI_field vm "snapshot_count" 0 5 h1,
     pyGtI_field vm "max_snapshot_age_days" 0 30 h2,
     guestLower_ok vm h7, pyGtI_field vm "nics" 0 3 h3, highUsage_ok vm h4 h5,
     pyGtI_field vm "uptime_days" 0 365 h6]
  rfl

/-- On a conformant record, `classify` never raises and computes the
total cascade `classifyP`. -/
theorem classify_ok (vm : PyDict) (h : classifyOkB vm = true) :
    classify vm = Except.ok (classifyP vm) := by
  unfold classifyOkB at h
  simp only [Bool.and_eq_true] at h
  obtain ⟨⟨⟨⟨⟨⟨⟨h1, h2⟩, h3⟩, h4⟩, h5⟩, h6⟩, h7⟩, h8⟩ := h
  unfold classify classifyP
  rw [zombieDays_ok vm h7, guestLower_ok vm h8]
  by_cases hz : (60 : Int) < zombieDaysP vm
  · simp [hz]
  · simp only [hz, if_false]
    cases hleg : legacyHit (guestStr vm) with
    | some pr => simp
    | none =>
        rw [rehostReasons_ok vm h1 h2 h3, refactorFires_ok vm (guestStr vm) h1 h2 h3 h4 h5 h6]
        by_cases hr : rehostReasonsP vm = [] <;>
          by_cases hf : refactorFiresP vm (guestStr vm) = true <;> simp [hr, hf]

/-- The cascade yields exactly five result shapes. -/
theorem classifyP_cases (vm : PyDict) :
    classifyP vm = ("retire", "high", "zombie-detection", zombieReason (zombieDaysP vm)) ∨
    (∃ reason, classifyP vm = ("keep", "high", "legacy-os-detection", reason)) ∨
    (∃ conf reason, (conf = "medium" ∨ conf = "high") ∧
      classifyP vm = ("rehost", conf, "workload-complexity", reason)) ∨
    classifyP vm = ("refactor_candidate", "medium", "conservative-refactor", refactorReason) ∨
    classifyP vm = ("keep", "medium", "default-conservative", defaultReason) := by
  unfold classifyP
  by_cases hz : (60 : Int) < zombieDaysP vm
  · simp [hz]
  · simp only [hz, if_false]
    cases hleg : legacyHit (guestStr vm) with
    | some pr => exact Or.inr (Or.inl ⟨pr.2, rfl⟩)
    | none =>
        by_cases hr : rehostReasonsP vm = []
        · by_cases hf : refactorFiresP vm (guestStr vm) = true
          · simp [hr, hf]
          · simp [hr, hf]
        · refine Or.inr (Or.inr (Or.inl
            ⟨if 1 < (rehostReasonsP vm).length then "high" else "medium",
             joinSep "; " (rehostReasonsP vm), ?_, by simp [hr]⟩))
          by_cases hl : 1 < (rehostReasonsP vm).length
          · exact Or.inr (by simp [hl])
          · exact Or.inl (by simp [hl])

/-- A day count above 60 forces the poweredOff gate (otherwise the guard
value is 0) and equals the tag extraction's value. -/
theorem zombieDaysP_gate (vm : PyDict) (h : (60 : Int) < zombieDaysP vm) :
    powerOffB vm = true ∧ zombieDaysP vm = extractDaysOf vm := by
  unfold zombieDaysP at *
  by_cases hp : powerOffB vm = true
  · simp [hp] at h ⊢
  · simp [hp] at h

/-- Only the zombie tier produces the rule name `zombie-detection`. -/
theorem classifyP_zombie_rule (vm : PyDict)
    (h : (classifyP vm).2.2.1 = "zombie-detection") : (60 : Int) < zombieDaysP vm := by
  by_contra hz
  unfold classifyP at h
  simp only [hz, if_false] at h
  cases hleg : legacyHit (guestStr vm) with
  | some pr => rw [hleg] at h; simp at h
  | none =>
      rw [hleg] at h
      by_cases hr : rehostReasonsP vm = []
      · by_cases hf : refactorFiresP vm (guestStr vm) = true
        · simp [hr, hf] at h
        · simp [hr, hf] at h
      · simp [hr] at h

/-- The fragment list is empty exactly when no fragment condition
fires. -/
theorem rehostReasonsP_nil_iff (vm : PyDict) :
    rehostReasonsP vm = [] ↔
      (snapHiB vm || nicHiB vm || toolsBadB vm || diskHiB vm) = false := by
  unfold rehostReasonsP
  cases snapHiB vm <;> cases nicHiB vm <;> cases toolsBadB vm <;> cases diskHiB vm <;> simp

/-- The fragment list's length counts the fired fragments. -/
theorem rehostReasonsP_length (vm : PyDict) :
    (rehostReasonsP vm).length = firedCount vm := by
  unfold rehostReasonsP firedCount
  cases snapHiB vm <;> cases nicHiB vm <;> cases toolsBadB vm <;> cases diskHiB vm <;> simp

/-! ### The claims -/

/-- C5: `risk_level` maps every score in 0–29 to `Low`, every score in
30–69 to `Medium` and every score in 70–100 to `High`, with the boundary
values 29, 69 and 70 landing on the lower tier's side. -/
theorem claim_C5 :
    (∀ s : Int, 0 ≤ s → s ≤ 29 → risk_level s = "Low") ∧
    (∀ s : Int, 30 ≤ s → s ≤ 69 → risk_level s = "Medium") ∧
    (∀ s : Int, 70 ≤ s → s ≤ 100 → risk_level s = "High") ∧
    risk_level 29 = "Low" ∧ risk_level 69 = "Medium" ∧ risk_level 70 = "High" := by
  refine ⟨?_, ?_, ?_, by decide, by decide, by decide⟩
  · intro s h1 h2
    unfold risk_level
    rw [if_pos h2]
  · intro s h1 h2
    unfold risk_level
    rw [if_neg (by omega), if_pos h2]
  · intro s h1 h2
    unfold risk_level
    rw [if_neg (by omega), if_neg (by omega)]

/-- Witness for C5 at the concrete scores 10, 50 and 99. -/
theorem claim_C5_witness :
    risk_level 10 = "Low" ∧ risk_level 50 = "Medium" ∧ risk_level 99 = "High" :=
  ⟨claim_C5.1 10 (by decide) (by decide),
   claim_C5.2.1 50 (by decide) (by decide),
   claim_C5.2.2.1 99 (by decide) (by decide)⟩

/-- C4: on schema-conformant records `score_vm` returns the clamped
additive score, always within `[0, 100]`; the raw sum of the seven
weights 20, 15, 25, 10, 10, 15, 10 is at most 105; the upper clamp is
reached on the all-signals record (scenario 6); and the lower clamp is
implemented (the clamp maps every integer into `[0, 100]`). -/
theorem claim_C4 :
    (∀ vm : PyDict, scoreOkB vm = true →
      score_vm vm = Except.ok (clampScore (rawScoreP vm), traceP vm) ∧
        0 ≤ clampScore (rawScoreP vm) ∧ clampScore (rawScoreP vm) ≤ 100) ∧
    (∀ vm : PyDict, 0 ≤ rawScoreP vm ∧ rawScoreP vm ≤ 105) ∧
    (∀ n : Int, 0 ≤ clampScore n ∧ clampScore n ≤ 100) ∧
    rawScoreP maxScoreVM = 105 ∧
    score_vm maxScoreVM = Except.ok (100, traceP maxScoreVM) := by
  have hclamp : ∀ n : Int, 0 ≤ clampScore n ∧ clampScore n ≤ 100 := by
    intro n
    simp only [clampScore]
    split_ifs <;> omega
  refine ⟨?_, ?_, hclamp, by decide, by decide⟩
  · intro vm h
    exact ⟨score_vm_ok vm h, (hclamp (rawScoreP vm)).1, (hclamp (rawScoreP vm)).2⟩
  · intro vm
    unfold rawScoreP
    split_ifs <;> omega

/-- Witness for C4 at the scenario-1 record. -/
theorem claim_C4_witness :
    scoreOkB zombieVM = true ∧
    (score_vm zombieVM = Except.ok (clampScore (rawScoreP zombieVM), traceP zombieVM) ∧
      0 ≤ clampScore (rawScoreP zombieVM) ∧ clampScore (rawScoreP zombieVM) ≤ 100) :=
  ⟨by decide, claim_C4.1 zombieVM (by decide)⟩

/-- C8: on schema-conformant records, `classify` returns a category
inside the closed four-value vocabulary and a confidence inside the
closed three-value vocabulary. -/
theorem claim_C8 :
    ∀ vm : PyDict, classifyOkB vm = true →
      ∃ cat conf rule reason, classify vm = Except.ok (cat, conf, rule, reason) ∧
        cat ∈ ALLOWED_CATEGORIES ∧ conf ∈ ALLOWED_CONFIDENCES := by
  intro vm h
  refine ⟨(classifyP vm).1, (classifyP vm).2.1, (classifyP vm).2.2.1,
    (classifyP vm).2.2.2, ?_, ?_, ?_⟩
  · rw [classify_ok vm h]
  · rcases classifyP_cases vm with hc | ⟨r, hc⟩ | ⟨c, r, hcf, hc⟩ | hc | hc
    · rw [hc]; simp [ALLOWED_CATEGORIES]
    · rw [hc]; simp [ALLOWED_CATEGORIES]
    · rw [hc]; rcases hcf with h1 | h1 <;> rw [h1] <;> simp [ALLOWED_CATEGORIES]
    · rw [hc]; decide
    · rw [hc]; decide
  · rcases classifyP_cases vm with hc | ⟨r, hc⟩ | ⟨c, r, hcf, hc⟩ | hc | hc
    · rw [hc]; simp [ALLOWED_CONFIDENCES]
    · rw [hc]; simp [ALLOWED_CONFIDENCES]
    · rw [hc]; rcases hcf with h1 | h1 <;> rw [h1] <;> simp [ALLOWED_CONFIDENCES]
    · rw [hc]; decide
    · rw [hc]; decide

/-- Witness for C8 at the scenario-4 record. -/
theorem claim_C8_witness :
    classifyOkB refactorVM = true ∧
    (∃ cat conf rule reason, classify refactorVM = Except.ok (cat, conf, rule, reason) ∧
      cat ∈ ALLOWED_CATEGORIES ∧ conf ∈ ALLOWED_CONFIDENCES) :=
  ⟨by decide, claim_C8 refactorVM (by decide)⟩

/-- C9: on schema-conformant records the `(category, confidence, rule)`
triple of `classify` takes one of exactly five shapes; confidence `low`
never occurs; `retire` only comes from the zombie tier (so every retire
record is poweredOff); and `rehost` only carries confidence `medium` or
`high`. -/
theorem claim_C9 :
    ∀ vm : PyDict, classifyOkB vm = true →
      ∃ r : ClassifyResult, classify vm = Except.ok r ∧
        (r = ("retire", "high", "zombie-detection", zombieReason (zombieDaysP vm)) ∨
         (∃ reason, r = ("keep", "high", "legacy-os-detection", reason)) ∨
         (∃ conf reason, (conf = "medium" ∨ conf = "high") ∧
           r = ("rehost", conf, "workload-complexity", reason)) ∨
         r = ("refactor_candidate", "medium", "conservative-refactor", refactorReason) ∨
         r = ("keep", "medium", "default-conservative", defaultReason)) ∧
        r.2.1 ≠ "low" ∧
        (r.1 = "retire" → powerOffB vm = true) ∧
        (r.1 = "rehost" → r.2.1 = "medium" ∨ r.2.1 = "high") := by
  intro vm h
  refine ⟨classifyP vm, classify_ok vm h, classifyP_cases vm, ?_, ?_, ?_⟩
  · rcases classifyP_cases vm with hc | ⟨r, hc⟩ | ⟨c, r, hcf, hc⟩ | hc | hc
    · rw [hc]; simp
    · rw [hc]; simp
    · rw [hc]; rcases hcf with h1 | h1 <;> rw [h1] <;> simp
    · rw [hc]; decide
    · rw [hc]; decide
  · intro hr
    rcases classifyP_cases vm with hc | ⟨r, hc⟩ | ⟨c, r, hcf, hc⟩ | hc | hc
    · have hz : (60 : Int) < zombieDaysP vm :=
        classifyP_zombie_rule vm (by rw [hc])
      exact (zombieDaysP_gate vm hz).1
    all_goals simp [hc] at hr
  · intro hr
    rcases classifyP_cases vm with hc | ⟨r, hc⟩ | ⟨c, r, hcf, hc⟩ | hc | hc
    · simp [hc] at hr
    · simp [hc] at hr
    · rw [hc]; exact hcf
    · simp [hc] at hr
    · simp [hc] at hr

/-- Witness for C9 at the scenario-5 record (default tier). -/
theorem claim_C9_witness :
    classifyOkB fedoraVM = true ∧
    (∃ r : ClassifyResult, classify fedoraVM = Except.ok r ∧
      (r = ("retire", "high", "zombie-detection", zombieReason (zombieDaysP fedoraVM)) ∨
       (∃ reason, r = ("keep", "high", "legacy-os-detection", reason)) ∨
       (∃ conf reason, (conf = "medium" ∨ conf = "high") ∧
         r = ("rehost", conf, "workload-complexity", reason)) ∨
       r = ("refactor_candidate", "medium", "conservative-refactor", refactorReason) ∨
       r = ("keep", "medium", "default-conservative", defaultReason)) ∧
      r.2.1 ≠ "low" ∧
      (r.1 = "retire" → powerOffB fedoraVM = true) ∧
      (r.1 = "rehost" → r.2.1 = "medium" ∨ r.2.1 = "high")) :=
  ⟨by decide, claim_C9 fedoraVM (by decide)⟩

/-- C6: on a schema-conformant record that neither the zombie tier nor
the legacy-OS tier matches, the workload-complexity tier fires exactly
when one of the four fragment conditions (snapshot count > 5, NIC count
> 3, tooling status != running, disk size > 300 GB, checked in that
order) holds; the fragment list counts the fired conditions, confidence
is `high` with two or more fragments and `medium` with one, and the
reason is the fired fragments joined by "; " in check order. -/
theorem claim_C6 :
    ∀ vm : PyDict, classifyOkB vm = true →
      zombieDaysP vm ≤ 60 →
      legacyHit (guestStr vm) = none →
      ((∃ conf reason, classify vm = Except.ok ("rehost", conf, "workload-complexity", reason)) ↔
         (snapHiB vm || nicHiB vm || toolsBadB vm || diskHiB vm) = true) ∧
      (rehostReasonsP vm).length = firedCount vm ∧
      ((snapHiB vm || nicHiB vm || toolsBadB vm || diskHiB vm) = true →
        classify vm = Except.ok ("rehost",
          if 2 ≤ firedCount vm then "high" else "medium",
          "workload-complexity", joinSep "; " (rehostReasonsP vm))) := by
  intro vm h hz hleg
  have hc := classify_ok vm h
  have hcp : classifyP vm =
      (if rehostReasonsP vm ≠ [] then
        ("rehost", if 1 < (rehostReasonsP vm).length then "high" else "medium",
         "workload-complexity", joinSep "; " (rehostReasonsP vm))
      else if refactorFiresP vm (guestStr vm) then
        ("refactor_candidate", "medium", "conservative-refactor", refactorReason)
      else ("keep", "medium", "default-conservative", defaultReason)) := by
    unfold classifyP
    rw [if_neg (by omega), hleg]
  refine ⟨⟨?_, ?_⟩, rehostReasonsP_length vm, ?_⟩
  · rintro ⟨conf, reason, hr⟩
    rw [hc] at hr
    injection hr with h2
    by_contra hflags
    rw [Bool.not_eq_true] at hflags
    have hnil := (rehostReasonsP_nil_iff vm).mpr hflags
    rw [hcp, if_neg (by simp [hnil])] at h2
    by_cases hf : refactorFiresP vm (guestStr vm) = true
    · rw [if_pos hf] at h2
      simp at h2
    · rw [if_neg hf] at h2
      simp at h2
  · intro hflags
    have hne : rehostReasonsP vm ≠ [] := by
      intro hnil
      rw [(rehostReasonsP_nil_iff vm).mp hnil] at hflags
      exact absurd hflags (by decide)
    exact ⟨_, _, by rw [hc, hcp, if_pos hne]⟩
  · intro hflags
    have hne : rehostReasonsP vm ≠ [] := by
      intro hnil
      rw [(rehostReasonsP_nil_iff vm).mp hnil] at hflags
      exact absurd hflags (by decide)
    rw [hc, hcp, if_pos hne, rehostReasonsP_length vm,
       if_congr (by omega : 1 < firedCount vm ↔ 2 ≤ firedCount vm) rfl rfl]

/-- Witness for C6 at the scenario-3 record (two fragments fire). -/
theorem claim_C6_witness :
    classifyOkB complexVM = true ∧ zombieDaysP complexVM ≤ 60 ∧
    legacyHit (guestStr complexVM) = none ∧
    (snapHiB complexVM || nicHiB complexVM || toolsBadB complexVM || diskHiB complexVM) = true ∧
    classify complexVM = Except.ok ("rehost",
      if 2 ≤ firedCount complexVM then "high" else "medium",
      "workload-complexity", joinSep "; " (rehostReasonsP complexVM)) :=
  ⟨by decide, by decide, by decide, by decide,
   (claim_C6 complexVM (by decide) (by decide) (by decide)).2.2 (by decide)⟩

/-- C7: on a schema-conformant record reaching tier 4, the
conservative-refactor tier fires exactly when the guest OS reads as
Linux, the NIC count is at most 1, the disk size is at most 100 GB and
the risk tally (snapshot count > 0, CPU > 70, memory > 70, uptime > 365,
one point each) is zero; otherwise the record gets the default
`keep`/`medium`/`default-conservative` result. -/
theorem claim_C7 :
    ∀ vm : PyDict, classifyOkB vm = true →
      zombieDaysP vm ≤ 60 →
      legacyHit (guestStr vm) = none →
      rehostReasonsP vm = [] →
      ((classify vm =
          Except.ok ("refactor_candidate", "medium", "conservative-refactor", refactorReason) ↔
        (isLinux (guestStr vm) && decide (fieldInt vm "nics" 1 ≤ 1) &&
         decide (fieldInt vm "disk_gb" 0 ≤ 100) && (riskTallyP vm == 0)) = true) ∧
      ((isLinux (guestStr vm) && decide (fieldInt vm "nics" 1 ≤ 1) &&
        decide (fieldInt vm "disk_gb" 0 ≤ 100) && (riskTallyP vm == 0)) = false →
        classify vm = Except.ok ("keep", "medium", "default-conservative", defaultReason))) := by
  intro vm h hz hleg hrs
  have hc := classify_ok vm h
  have hfire : refactorFiresP vm (guestStr vm) =
      (isLinux (guestStr vm) && decide (fieldInt vm "nics" 1 ≤ 1) &&
       decide (fieldInt vm "disk_gb" 0 ≤ 100) && (riskTallyP vm == 0)) := rfl
  have hcp : classifyP vm =
      (if refactorFiresP vm (guestStr vm) then
        ("refactor_candidate", "medium", "conservative-refactor", refactorReason)
      else ("keep", "medium", "default-conservative", defaultReason)) := by
    unfold classifyP
    rw [if_neg (by omega), hleg, if_neg (by simp [hrs])]
  constructor
  · constructor
    · intro hr
      rw [hc] at hr
      injection hr with h2
      rw [hcp] at h2
      by_cases hf : refactorFiresP vm (guestStr vm) = true
      · rw [← hfire]
        exact hf
      · rw [if_neg hf] at h2
        simp at h2
    · intro hflags
      rw [hc, hcp, if_pos (hfire ▸ hflags)]
  · intro hflags
    rw [hc, hcp, if_neg (by rw [hfire, hflags]; exact Bool.false_ne_true)]

/-- Witness for C7 at the scenario-4 record (eligible) — the iff applied
forward. -/
theorem claim_C7_witness :
    classifyOkB refactorVM = true ∧ zombieDaysP refactorVM ≤ 60 ∧
    legacyHit (guestStr refactorVM) = none ∧ rehostReasonsP refactorVM = [] ∧
    classify refactorVM =
      Except.ok ("refactor_candidate", "medium", "conservative-refactor", refactorReason) :=
  ⟨by decide, by decide, by decide, by decide,
   ((claim_C7 refactorVM (by decide) (by decide) (by decide) (by decide)).1).mpr (by decide)⟩

/-- C1 as frozen is refuted: on `staleTagVM` the spec-literal trigger
(a well-formed `powered_off_days=<integer>` tag with value over 60 is
present, the record is poweredOff) holds, yet the extraction commits to
the earlier malformed tag (yielding 0) and classification lands in the
workload-complexity tier, not the zombie tier. -/
theorem claim_C1_counterexample :
    specZombieTriggerB staleTagVM = true ∧
    extractDaysOf staleTagVM = 0 ∧
    classify staleTagVM = Except.ok ("rehost", "medium", "workload-complexity",
      "VMware Tools unknown indicates operational complexity") := by
  refine ⟨by decide, by decide, by decide⟩

/-- C1 amended: on schema-conformant records, `classify` returns
`(retire, high, zombie-detection)` with the extracted day count in the
reason exactly when the power state is `poweredOff` and the day count
extracted from the FIRST tag starting with `powered_off_days=` (0 when
its suffix is malformed) is strictly greater than 60. -/
theorem claim_C1 :
    ∀ vm : PyDict, classifyOkB vm = true →
      (classify vm =
          Except.ok ("retire", "high", "zombie-detection", zombieReason (extractDaysOf vm)) ↔
        (powerOffB vm = true ∧ 60 < extractDaysOf vm)) := by
  intro vm h
  have hc := classify_ok vm h
  constructor
  · intro hr
    rw [hc] at hr
    injection hr with h2
    have hz : (60 : Int) < zombieDaysP vm := classifyP_zombie_rule vm (by rw [h2])
    obtain ⟨hp, he⟩ := zombieDaysP_gate vm hz
    exact ⟨hp, he ▸ hz⟩
  · rintro ⟨hp, hd⟩
    have hz : (60 : Int) < zombieDaysP vm := by
      unfold zombieDaysP
      simp only [hp, if_true]
      exact hd
    rw [hc]
    unfold classifyP
    rw [if_pos hz, (zombieDaysP_gate vm hz).2]

/-- Witness for the amended C1 at the scenario-1 record. -/
theorem claim_C1_witness :
    classifyOkB zombieVM = true ∧ powerOffB zombieVM = true ∧
    (60 : Int) < extractDaysOf zombieVM ∧
    classify zombieVM =
      Except.ok ("retire", "high", "zombie-detection", zombieReason (extractDaysOf zombieVM)) :=
  ⟨by decide, by decide, by decide,
   (claim_C1 zombieVM (by decide)).mpr ⟨by decide, by decide⟩⟩

/-- C10: the tag extraction commits to the first tag starting with
`powered_off_days=` — it returns that tag's parsed integer suffix (0 on
a malformed suffix) without inspecting later tags — so `staleTagVM`
(malformed first tag, well-formed second tag reading 120) extracts 0 and
is not classified by the zombie tier. -/
theorem claim_C10 :
    (∀ (t : String) (rest : List PyVal), pyStartsWith t offDaysTagKey = true →
      extractDaysList (PyVal.vstr t :: rest) =
        Except.ok ((pyIntParse (pyDrop t 17)).getD 0)) ∧
    extractPoweredOffDays (dictGetD staleTagVM "tags" (PyVal.vlist [])) = Except.ok 0 ∧
    classify staleTagVM = Except.ok ("rehost", "medium", "workload-complexity",
      "VMware Tools unknown indicates operational complexity") := by
  refine ⟨?_, by decide, by decide⟩
  · intro t rest ht
    unfold extractDaysList
    rw [if_pos ht]

/-- Witness for C10: the first-tag rule applied to a concrete tag list
whose later entry would read 200. -/
theorem claim_C10_witness :
    pyStartsWith "powered_off_days=90" offDaysTagKey = true ∧
    extractDaysList
        (PyVal.vstr "powered_off_days=90" :: [PyVal.vstr "powered_off_days=200"]) =
      Except.ok ((pyIntParse (pyDrop "powered_off_days=90" 17)).getD 0) :=
  ⟨by decide,
   claim_C10.1 "powered_off_days=90" [PyVal.vstr "powered_off_days=200"] (by decide)⟩

/-- A value equals a string literal under Python `==` exactly when it is
that string. -/
theorem pyEqStr_iff (v : PyVal) (s : String) :
    pyEqStr v s = true ↔ v = PyVal.vstr s := by
  cases v <;> simp [pyEqStr]

/-- C2 as frozen is refuted: a record whose `snapshot_count` holds the
string `"many"` makes the cascade's bare `>` comparison raise a
`TypeError`, aborting classification — while the generic condition
evaluator treats the very same comparison as false. -/
theorem claim_C2_counterexample :
    classify badSnapVM = Except.error "TypeError" ∧
    evalCondition badSnapVM gtSnapCond = Except.ok false :=
  ⟨by decide, by decide⟩

/-- C2 amended: the generic condition evaluator's `gt`/`gte`/`lt`/`lte`
comparisons never raise — a malformed operand makes the guarded
comparison false — and `classify` never raises on records whose numeric
fields are absent or numeric (missing fields fall back to defaults);
but a malformed numeric field in the cascade raises instead of being
treated as false (see the counterexample). -/
theorem claim_C2 :
    (∀ vm cond : PyDict, pyEqStr (dictGetD cond "op" PyVal.vnone) "gt" = true →
      evalCondition vm cond =
        Except.ok (guardedCmp (fun a b => b < a) (condVmVal vm cond)
          (dictGetD cond "value" PyVal.vnone))) ∧
    (∀ vm cond : PyDict, pyEqStr (dictGetD cond "op" PyVal.vnone) "gte" = true →
      evalCondition vm cond =
        Except.ok (guardedCmp (fun a b => b ≤ a) (condVmVal vm cond)
          (dictGetD cond "value" PyVal.vnone))) ∧
    (∀ vm cond : PyDict, pyEqStr (dictGetD cond "op" PyVal.vnone) "lt" = true →
      evalCondition vm cond =
        Except.ok (guardedCmp (fun a b => a < b) (condVmVal vm cond)
          (dictGetD cond "value" PyVal.vnone))) ∧
    (∀ vm cond : PyDict, pyEqStr (dictGetD cond "op" PyVal.vnone) "lte" = true →
      evalCondition vm cond =
        Except.ok (guardedCmp (fun a b => a ≤ b) (condVmVal vm cond)
          (dictGetD cond "value" PyVal.vnone))) ∧
    (∀ (cmp : Int → Int → Bool) (v pv : PyVal), pyFloatParse v = none →
      guardedCmp cmp v pv = false) ∧
    (∀ vm : PyDict, classifyOkB vm = true → (classify vm).isOk = true) := by
  refine ⟨?_, ?_, ?_, ?_, ?_, ?_⟩
  · intro vm cond hop
    rw [pyEqStr_iff] at hop
    simp [evalCondition, hop, pyEqStr]
  · intro vm cond hop
    rw [pyEqStr_iff] at hop
    simp [evalCondition, hop, pyEqStr]
  · intro vm cond hop
    rw [pyEqStr_iff] at hop
    simp [evalCondition, hop, pyEqStr]
  · intro vm cond hop
    rw [pyEqStr_iff] at hop
    simp [evalCondition, hop, pyEqStr]
  · intro cmp v pv h
    unfold guardedCmp
    rw [h]
  · intro vm h
    rw [classify_ok vm h]
    rfl

/-- Witness for the amended C2: the `gt` comparison on the malformed
record evaluates to false, and classification of the scenario-3 record
returns a result. -/
theorem claim_C2_witness :
    pyEqStr (dictGetD gtSnapCond "op" PyVal.vnone) "gt" = true ∧
    evalCondition badSnapVM gtSnapCond =
      Except.ok (guardedCmp (fun a b => b < a) (condVmVal badSnapVM gtSnapCond)
        (dictGetD gtSnapCond "value" PyVal.vnone)) ∧
    evalCondition badSnapVM gtSnapCond = Except.ok false ∧
    classifyOkB complexVM = true ∧ (classify complexVM).isOk = true :=
  ⟨by decide, claim_C2.1 badSnapVM gtSnapCond (by decide), by decide, by decide,
   claim_C2.2.2.2.2.2 complexVM (by decide)⟩

/-- Per-rule characterisation of `_validate_rules`: when the category
slot holds a string, a conforming rule passes and a non-conforming rule
raises a `ValueError` carrying the rule's name and the allowed set
(category vocabulary when the category check fails, confidence
vocabulary otherwise). -/
theorem validateRule_char (r : PyDict) (hstr : ruleCatIsStrB r = true) :
    (ruleOkB r = true → validateRule r = Except.ok ()) ∧
    (ruleOkB r = false → ∃ e, validateRule r = Except.error (Except.ok e) ∧
      e.ruleName = dictGet r "name" ∧
      (e.allowed = ALLOWED_CATEGORIES ∨ e.allowed = ALLOWED_CONFIDENCES)) := by
  have hcat : ∃ s, dictGetD r "category" (PyVal.vstr "") = PyVal.vstr s := by
    unfold ruleCatIsStrB at hstr
    cases hg : dictGetD r "category" (PyVal.vstr "") with
    | vstr s => exact ⟨s, rfl⟩
    | vnone => rw [hg] at hstr; simp at hstr
    | vint n => rw [hg] at hstr; simp at hstr
    | vlist xs => rw [hg] at hstr; simp at hstr
  obtain ⟨s, hcat⟩ := hcat
  have hlow : ruleCatLower r = Except.ok (pyLower s) := by
    unfold ruleCatLower
    rw [hcat]
  have hok_iff : ruleOkB r =
      (ALLOWED_CATEGORIES.contains (pyLower s) &&
       ALLOWED_CONFIDENCES.contains (ruleConfLower r)) := by
    unfold ruleOkB
    rw [hlow]
  constructor
  · intro hok
    rw [hok_iff, Bool.and_eq_true] at hok
    have m1 : pyLower s ∈ ALLOWED_CATEGORIES := by simpa using hok.1
    have m2 : ruleConfLower r ∈ ALLOWED_CONFIDENCES := by simpa using hok.2
    unfold validateRule
    simp only [hlow]
    simp [m1, m2]
  · intro hbad
    rw [hok_iff] at hbad
    by_cases h1 : ALLOWED_CATEGORIES.contains (pyLower s) = true
    · have h2 : ¬ ALLOWED_CONFIDENCES.contains (ruleConfLower r) = true := by
        rw [h1] at hbad
        simp at hbad
        simp [hbad]
      refine ⟨⟨dictGet r "name", ruleConfLower r, ALLOWED_CONFIDENCES⟩, ?_, rfl, Or.inr rfl⟩
      unfold validateRule
      simp only [hlow]
      rw [if_pos h1, if_neg h2]
    · refine ⟨⟨dictGet r "name", pyLower s, ALLOWED_CATEGORIES⟩, ?_, rfl, Or.inl rfl⟩
      unfold validateRule
      simp only [hlow]
      rw [if_neg h1]

/-- C3: on rule lists whose category slots hold strings (the catalog
data model), validation succeeds exactly when every descriptor's
category and confidence sit in the closed vocabularies
(case-insensitively; confidence coerced to a string first); on failure
the raised error names an offending rule and one of the two allowed
sets; and the post-parse check of `load_rules` accepts exactly lists,
rejecting any other parse result as a fatal error. -/
theorem claim_C3 :
    (∀ rules : List PyDict, (∀ r ∈ rules, ruleCatIsStrB r = true) →
      (validateRules rules = Except.ok () ↔ rules.all ruleOkB = true)) ∧
    (∀ rules : List PyDict, (∀ r ∈ rules, ruleCatIsStrB r = true) →
      rules.all ruleOkB = false →
      ∃ r e, r ∈ rules ∧ ruleOkB r = false ∧
        validateRules rules = Except.error (Except.ok e) ∧
        e.ruleName = dictGet r "name" ∧
        (e.allowed = ALLOWED_CATEGORIES ∨ e.allowed = ALLOWED_CONFIDENCES)) ∧
    (∀ xs : List PyVal, loadRulesParsed (PyVal.vlist xs) = Except.ok xs) ∧
    (∀ data : PyVal, (∀ xs : List PyVal, data ≠ PyVal.vlist xs) →
      loadRulesParsed data = Except.error "Rules file must be a YAML/JSON list of rules") := by
  refine ⟨?_, ?_, fun xs => rfl, ?_⟩
  · intro rules
    induction rules with
    | nil => intro _; simp [validateRules]
    | cons r rest ih =>
        intro hstr
        have hr := validateRule_char r (hstr r (by simp))
        by_cases hok : ruleOkB r = true
        · have hstep : validateRules (r :: rest) = validateRules rest := by
            simp only [validateRules, hr.1 hok]
          rw [hstep, List.all_cons, hok, Bool.true_and]
          exact ih (fun q hq => hstr q (by simp [hq]))
        · obtain ⟨e, he, _, _⟩ := hr.2 (by simpa using hok)
          constructor
          · intro hv
            simp [validateRules, he] at hv
          · intro hall
            rw [List.all_cons, Bool.and_eq_true] at hall
            exact absurd hall.1 hok
  · intro rules
    induction rules with
    | nil => intro _ hall; simp at hall
    | cons r rest ih =>
        intro hstr hall
        have hr := validateRule_char r (hstr r (by simp))
        by_cases hok : ruleOkB r = true
        · rw [List.all_cons, hok, Bool.true_and] at hall
          obtain ⟨q, e, hq, hqbad, hv, hname, hallow⟩ :=
            ih (fun q hq => hstr q (by simp [hq])) hall
          refine ⟨q, e, by simp [hq], hqbad, ?_, hname, hallow⟩
          simp only [validateRules, hr.1 hok]
          exact hv
        · rw [Bool.not_eq_true] at hok
          obtain ⟨e, he, hname, hallow⟩ := hr.2 hok
          exact ⟨r, e, by simp, hok, by simp only [validateRules, he], hname, hallow⟩
  · intro data h
    cases data with
    | vlist xs => exact absurd rfl (h xs)
    | vnone => rfl
    | vint n => rfl
    | vstr s => rfl

/-- Witness for C3: the valid catalog passes, the catalog with a
`replatform` category fails naming an offending rule and an allowed
set. -/
theorem claim_C3_witness :
    validateRules goodRules = Except.ok () ∧
    (∃ r e, r ∈ badRules ∧ ruleOkB r = false ∧
      validateRules badRules = Except.error (Except.ok e) ∧
      e.ruleName = dictGet r "name" ∧
      (e.allowed = ALLOWED_CATEGORIES ∨ e.allowed = ALLOWED_CONFIDENCES)) :=
  ⟨(claim_C3.1 goodRules (by decide)).mpr (by decide),
   claim_C3.2.1 badRules (by decide) (by decide)⟩

end VMIntel
